import Mathlib

/-
Verification of the gst-plugins-bad VMAF element (gstvmaf.c and the
libvmaf wrapper RunVMAF) against its natural-language specification.

The element state is embedded shallowly: the per-stream helper struct
GstVmafThreadHelper becomes the structure Helper, GLib mutexes become
booleans (true = locked), pixel buffers become functions from byte
offsets to byte values, and gdouble scores become rationals.  Blocking
mutex acquisition is modelled by returning none when the mutex is held
at the point the embedded function would lock it; the producer/consumer
rendezvous inside compare_frames is modelled by running the consumer
side (read_frame, or the worker wrap-up that records an engine error)
at the point the producer signals frame-ready.  Each embedded function
also emits a trace of the externally visible events it performs, so
ordering claims (copy before signal, channel close before join) can be
stated about the trace.
-/

namespace GstVmaf

/-- Pool methods, from GstVmafPoolMethodEnum in vmaf.h. -/
inductive GstVmafPoolMethodEnum
  | minPool
  | meanPool
  | harmonicMeanPool
deriving DecidableEq

/-- The VmafPoolMethodNames table of the wrapper, indexed by the enum. -/
def poolMethodName : GstVmafPoolMethodEnum → String
  | GstVmafPoolMethodEnum.minPool => "min"
  | GstVmafPoolMethodEnum.meanPool => "mean"
  | GstVmafPoolMethodEnum.harmonicMeanPool => "harmonic_mean"

/-- Log formats, from GstVmafLogFmtEnum in vmaf.h (XML is commented out
in the source, so only JSON exists). -/
inductive GstVmafLogFmtEnum
  | jsonLogFmt
deriving DecidableEq

/-- The configuration fields of the GstVmaf element that RunVMAF reads
through thread_helper->gst_vmaf_p. -/
structure Config where
  model_path : String
  log_path : Option String
  log_fmt : GstVmafLogFmtEnum
  disable_clip : Bool
  enable_transform : Bool
  phone_model : Bool
  psnr : Bool
  ssim : Bool
  ms_ssim : Bool
  pool_method : GstVmafPoolMethodEnum
  num_threads : Nat
  subsample : Nat
  conf_int : Bool

/-- Embedding of GstVmafThreadHelper.  The three GMutex fields are
booleans (true = locked); gst_task state is reduced to the single bit
thread_started; the two pixel pointers are byte buffers indexed by
offset.  The score is a rational standing for the gdouble. -/
structure Helper where
  no_frames : Bool
  reading_correct : Bool
  score : Rat
  error : Int
  sink_index : Nat
  original_ptr : Nat → Nat
  distorted_ptr : Nat → Nat
  frame_height : Nat
  frame_width : Nat
  y10bit : Bool
  wait_frame : Bool
  wait_reading_complete : Bool
  check_error : Bool
  thread_started : Bool

/-- A video frame as compare_frames sees it: negotiated geometry from
GstVideoInfo plus the mapped pixel buffer. -/
structure Frame where
  width : Nat
  height : Nat
  data : Nat → Nat

/-- Externally visible events of the handoff protocol, used to state
ordering properties. -/
inductive Ev
  | taskStart
  | signalFrameReady
  | copyPixel (i j refVal mainVal : Nat)
  | signalReadingComplete
  | copyOutbuf
deriving DecidableEq

/-- The per-pixel copy loop of read_frame: for every row i and column j
it copies one reference byte and one distorted byte out of the shared
buffers.  The event records the values read. -/
def readCopyTrace (h : Helper) : List Ev :=
  (List.range h.frame_height).flatMap (fun i =>
    (List.range h.frame_width).map (fun j =>
      Ev.copyPixel i j (h.original_ptr (i * h.frame_width + j))
        (h.distorted_ptr (i * h.frame_width + j))))

/-- Embedding of read_frame (gstvmaf.c).  The function first locks
wait_frame, which blocks until the producer signals frame-ready or the
close path signals no-more-frames (both do so by unlocking wait_frame);
a state in which wait_frame is still locked therefore yields none.
With the lock held: if no_frames is clear it copies both pixel buffers,
sets reading_correct and unlocks wait_reading_complete (frame-consumed),
returning 0; if no_frames is set it clears reading_correct and returns 2
without touching wait_reading_complete. -/
def read_frame (h : Helper) : Option (Int × Helper × List Ev) :=
  if h.wait_frame = true then none
  else
    let h1 : Helper := { h with wait_frame := true }
    if h1.no_frames = false then
      some (0, { h1 with reading_correct := true, wait_reading_complete := false },
            readCopyTrace h1 ++ [Ev.signalReadingComplete])
    else
      some (2, { h1 with reading_correct := false }, [])

/-- The worker reaction at the rendezvous point of compare_frames:
either the worker is blocked inside read_frame and executes it once the
producer signals frame-ready, or the scoring engine has failed and the
worker wrap-up (vmaf_thread_call) records the error code and unlocks
wait_reading_complete so the producer does not wait forever. -/
inductive ConsumerAct
  | respond
  | engineAbort (code : Int)

/-- Embedding of compare_frames (gstvmaf.c).  Lazy start: when the
recorded geometry is still zero, it is set from the reference frame and
the worker task is started.  Then the error check: lock check_error,
and if a nonzero error was recorded, stop the task and return FALSE --
the source returns here without unlocking check_error, which the
embedding reproduces.  Otherwise the pointers are published, wait_frame
is unlocked (frame-ready), the consumer acts, and the producer locks
wait_reading_complete (frame-consumed), after which it either copies
the reference into the output buffer (success) or re-checks the error
and returns FALSE. -/
def rendezvousState (g : Helper) (ref cmp : Frame) : Helper :=
  { g with
      check_error := false
      reading_correct := false
      original_ptr := ref.data
      distorted_ptr := cmp.data
      wait_frame := false }

def compare_frames (h0 : Helper) (ref cmp : Frame) (consumer : ConsumerAct) :
    Option (Bool × Helper × List Ev) :=
  let startPair : Helper × List Ev :=
    if h0.frame_width = 0 ∨ h0.frame_height = 0 then
      ({ h0 with
          frame_width := ref.width
          frame_height := ref.height
          thread_started := true }, [Ev.taskStart])
    else (h0, [])
  let h1 := startPair.1
  let ev0 := startPair.2
  if h1.check_error = true then none
  else
    let h2 : Helper := { h1 with check_error := true }
    if h2.error ≠ 0 then
      some (false, { h2 with thread_started := false }, ev0)
    else
      let h3 : Helper := rendezvousState h2 ref cmp
      let ev1 := ev0 ++ [Ev.signalFrameReady]
      let consPair : Helper × List Ev :=
        match consumer with
        | ConsumerAct.respond =>
          match read_frame h3 with
          | none => (h3, ev1)
          | some (_r, h4, tr) => (h4, ev1 ++ tr)
        | ConsumerAct.engineAbort code =>
          ({ h3 with error := code, wait_reading_complete := false }, ev1)
      let h5 := consPair.1
      let ev2 := consPair.2
      if h5.wait_reading_complete = true then none
      else
        let h6 : Helper := { h5 with wait_reading_complete := true }
        if h6.reading_correct = true then
          some (true, h6, ev2 ++ [Ev.copyOutbuf])
        else
          if h6.check_error = true then none
          else
            let h7 : Helper := { h6 with check_error := true }
            let h8 : Helper := if h7.error ≠ 0 then { h7 with thread_started := false } else h7
            some (false, { h8 with check_error := false }, ev2)

/-- The per-helper initialisation performed by vmaf_threads_open: flags
cleared, score -1, error 0, null buffers, geometry zero, wait_frame and
wait_reading_complete initialised and immediately locked, check_error
initialised unlocked, task created but not started.  The null pointers
are modelled as the constant-zero buffer (the source never branches on
the pointer value itself). -/
def initHelper (i : Nat) : Helper :=
  { no_frames := false
    reading_correct := false
    score := -1
    error := 0
    sink_index := i
    original_ptr := fun _ => 0
    distorted_ptr := fun _ => 0
    frame_height := 0
    frame_width := 0
    y10bit := false
    wait_frame := true
    wait_reading_complete := true
    check_error := false
    thread_started := false }

/-- Default helper used for out-of-range list reads. -/
def helperDefault : Helper := initHelper 0

/-- Embedding of vmaf_threads_open: one helper per sink pad excluding
the reference pad. -/
def vmaf_threads_open (numSinkPads : Nat) : List Helper :=
  (List.range (numSinkPads - 1)).map initHelper

/-- Events of the teardown path. -/
inductive CloseEv
  | setNoFrames (i : Nat)
  | unlockWaitFrame (i : Nat)
  | join (i : Nat)
deriving DecidableEq

/-- The first teardown loop body of vmaf_threads_close for one helper:
no_frames is set, then trylock followed by unlock leaves wait_frame
unlocked whatever its previous state.  Both operations are nonblocking. -/
def closeHelper (h : Helper) : Helper :=
  { h with no_frames := true, wait_frame := false }

/-- Embedding of vmaf_threads_close: a first loop closes every channel
(set no_frames, trylock and unlock wait_frame), then a second loop joins
every worker task.  The trace records that all channel-close events are
emitted before any join. -/
def vmaf_threads_close (pool : List Helper) : List Helper × List CloseEv :=
  (pool.map closeHelper,
   ((List.range pool.length).flatMap (fun i =>
      [CloseEv.setNoFrames i, CloseEv.unlockWaitFrame i]))
     ++ (List.range pool.length).map CloseEv.join)

/-- GstFlowReturn values used by gst_vmaf_aggregate_frames. -/
inductive FlowReturn
  | ok
  | flowError
deriving DecidableEq

/-- The element message posted on a successful cycle: structure name
and the time field set from the source pad segment position. -/
structure GstMsg where
  sname : String
  time : Option Nat
deriving DecidableEq

/-- Result of one aggregate cycle: the flow return, the posted message
if any, the updated pool, and the list of (stream index, result) pairs
for every compare_frames dispatch that was performed. -/
structure AggOut where
  flow : FlowReturn
  posted : Option GstMsg
  pool : List Helper
  dispatched : List (Nat × Bool)

/-- The sink-pad loop of gst_vmaf_aggregate_frames: pads without a
prepared frame are skipped, the first prepared frame becomes the
reference, and every later prepared frame is dispatched through
compare_frames at the next stream index, accumulating res with a
non-short-circuiting AND exactly as the source res &= call does. -/
def aggLoop (cons : Nat → ConsumerAct) (ref : Option Frame) (pool : List Helper)
    (idx : Nat) (res : Bool) (disp : List (Nat × Bool)) :
    List (Option Frame) → Option (Bool × List Helper × List (Nat × Bool))
  | [] => some (res, pool, disp)
  | none :: rest => aggLoop cons ref pool idx res disp rest
  | some f :: rest =>
    match ref with
    | none => aggLoop cons (some f) pool idx res disp rest
    | some rf =>
      match compare_frames (pool.getD idx helperDefault) rf f (cons idx) with
      | none => none
      | some (r, h', _tr) =>
        aggLoop cons (some rf) (pool.set idx h') (idx + 1) (res && r)
          (disp ++ [(idx, r)]) rest

/-- Embedding of gst_vmaf_aggregate_frames: run the pad loop; on
failure of any dispatch return GST_FLOW_ERROR without posting, and
otherwise set the time field on the message, post it, and return
GST_FLOW_OK. -/
def gst_vmaf_aggregate_frames (cons : Nat → ConsumerAct) (pool : List Helper)
    (pads : List (Option Frame)) (t : Nat) : Option AggOut :=
  match aggLoop cons none pool 0 true [] pads with
  | none => none
  | some (res, pool', disp) =>
    if res then
      some { flow := FlowReturn.ok
             posted := some { sname := "VMAF", time := some t }
             pool := pool'
             dispatched := disp }
    else
      some { flow := FlowReturn.flowError
             posted := none
             pool := pool'
             dispatched := disp }

/-- Dispatching a whole sequence of frame pairs to one stream through
compare_frames with a responding worker, collecting the event trace. -/
def dispatchAll (h : Helper) : List (Frame × Frame) → Option (Helper × List Ev)
  | [] => some (h, [])
  | (rf, cf) :: rest =>
    match compare_frames h rf cf ConsumerAct.respond with
    | none => none
    | some (_res, h', tr) =>
      match dispatchAll h' rest with
      | none => none
      | some (hf, trs) => some (hf, tr ++ trs)

/-- Identifiers for the named metrics whose aggregates RunVMAF prints.
Each corresponds to one literal printf in the wrapper. -/
inductive MetricId
  | vmaf
  | bagging
  | stddev
  | ci95lo
  | ci95hi
  | psnr
  | ssim
  | msssim
deriving DecidableEq

/-- The metric label exactly as it appears in the printf format of the
wrapper. -/
def metricLabel : MetricId → String
  | MetricId.vmaf => "VMAF"
  | MetricId.bagging => "Bagging"
  | MetricId.stddev => "StdDev"
  | MetricId.ci95lo => "CI95_low"
  | MetricId.ci95hi => "CI95_high"
  | MetricId.psnr => "PSNR"
  | MetricId.ssim => "SSIM"
  | MetricId.msssim => "MS-SSIM"

/-- One console line, one constructor per printf call in the wrapper
and in vmaf_thread_call.  Numeric rendering of the gdouble argument is
abstracted as the ToString of the rational. -/
inductive CLine
  | metricScore (m : MetricId) (pool : String) (v : Rat)
  | bootstrapScore (pool : String) (modelIdx : Nat) (v : Rat)
  | caught (kind : String) (msg : String)
  | caughtUnknown
  | errSink (idx : Nat) (code : Int)
  | vmafSink (idx : Nat) (v : Rat)
deriving DecidableEq

/-- The literal text of a console line, following the printf format
strings of the source. -/
def CLine.render : CLine → String
  | CLine.metricScore m p v => metricLabel m ++ " score (" ++ p ++ ") = " ++ toString v
  | CLine.bootstrapScore p k v =>
      "VMAF score (" ++ p ++ "), model " ++ toString k ++ " = " ++ toString v
  | CLine.caught kind msg => "Caught " ++ kind ++ ": " ++ msg
  | CLine.caughtUnknown => "Unknown exception!"
  | CLine.errSink i c => "Error sink_" ++ toString i ++ ": " ++ toString c
  | CLine.vmafSink i v => "VMAF sink_" ++ toString i ++ ": " ++ toString v

/-- The outcome of libvmaf as observed by RunVMAF after the run call:
the metric keys, the per-frame score series per key, and the pooled
aggregate per key once the score aggregate method has been set.  The
scoring engine itself is an external collaborator, so its outcome is a
parameter of the embedding. -/
structure EngineResult where
  keys : List String
  scores : String → List Rat
  agg : GstVmafPoolMethodEnum → String → Rat

/-- Embedding of Result::has_scores: whether the key is present. -/
def EngineResult.hasScores (r : EngineResult) (k : String) : Bool :=
  r.keys.contains k

/-- The exception kinds caught by the catch ladder of RunVMAF. -/
inductive EngineExc
  | runtimeError (msg : String)
  | logicError (msg : String)
  | stdExc (msg : String)
  | unknownExc
deriving DecidableEq

/-- The return code RunVMAF produces for each caught exception. -/
def excCode : EngineExc → Int
  | EngineExc.runtimeError _ => -3
  | EngineExc.logicError _ => -4
  | EngineExc.stdExc _ => -5
  | EngineExc.unknownExc => -6

/-- The console line each catch branch prints. -/
def excConsoleLine : EngineExc → CLine
  | EngineExc.runtimeError m => CLine.caught "runtime_error" m
  | EngineExc.logicError m => CLine.caught "logic_error" m
  | EngineExc.stdExc m => CLine.caught "exception" m
  | EngineExc.unknownExc => CLine.caughtUnknown

/-- Whether an engine outcome is a failure (any caught exception). -/
def engineFailed : Except EngineExc EngineResult → Bool
  | Except.error _ => true
  | Except.ok _ => false

/-- The aggregate the wrapper computes for an optional metric: 0.0
unless the result has scores for the key, in which case get_score. -/
def aggregateOf (r : EngineResult) (pm : GstVmafPoolMethodEnum) (k : String) : Rat :=
  if r.hasScores k then r.agg pm k else 0

/-- Character-list matching: pat is an initial segment of l. -/
def charsMatch : List Char → List Char → Bool
  | [], _ => true
  | _ :: _, [] => false
  | a :: as, b :: bs => a = b && charsMatch as bs

/-- Character-list containment at any position. -/
def charsContain (pat : List Char) : List Char → Bool
  | [] => charsMatch pat []
  | b :: bs => charsMatch pat (b :: bs) || charsContain pat bs

/-- The wrapper test result_keys[j].find("vmaf_") != npos: the key
contains the bootstrap model tag anywhere. -/
def keyIsBootstrap (k : String) : Bool :=
  charsContain "vmaf_".data k.data

/-- One step of the bootstrap-model loop of the wrapper, accumulating
the count, the comma-separated list string and the console lines. -/
def bootstrapStep (pm : GstVmafPoolMethodEnum) (r : EngineResult)
    (acc : Nat × String × List CLine) (k : String) : Nat × String × List CLine :=
  if keyIsBootstrap k then
    let n := acc.1
    let s := acc.2.1
    let s' := if n = 0 then s ++ k ++ "," else if n = 1 then s ++ k else s ++ "," ++ k
    (n + 1, s', acc.2.2 ++ [CLine.bootstrapScore (poolMethodName pm) (n + 1) (r.agg pm k)])
  else acc

/-- The whole bootstrap-model loop over the result keys. -/
def bootstrapInfo (pm : GstVmafPoolMethodEnum) (r : EngineResult) :
    Nat × String × List CLine :=
  r.keys.foldl (bootstrapStep pm r) (0, "", [])

/-- The params block of the JSON log. -/
structure JsonParams where
  model : String
  scaledWidth : Nat
  scaledHeight : Nat
  subsample : Nat
  numBootstrapModels : Nat
  bootstrapModelList : String
deriving DecidableEq

/-- The JSON log record the wrapper serializes: params, the metric name
list, the ordered per-frame records (frame number and metric map), and
the footer aggregate entries in order of writing. -/
structure JsonReport where
  params : JsonParams
  metrics : List String
  frames : List (Nat × List (String × Rat))
  aggregates : List (String × Rat)
deriving DecidableEq

/-- Modelled from the spec: the definition of _get_file_name is not in
the provided sources (only its declaration is); per the spec the params
block records the model identity, abstracted here as the configured
path itself. -/
def fileNameOf (p : String) : String := p

/-- The per-frame section of the JSON log: one record per subsampled
score, whose frameNum field is the subsampled position times the
subsample stride, and whose metric map reads each series at that
position. -/
def jsonFrames (r : EngineResult) (stride : Nat) : List (Nat × List (String × Rat)) :=
  (List.range (r.scores "vmaf").length).map (fun i =>
    (i * stride, r.keys.map (fun k => (k, (r.scores k).getD i 0))))

/-- Just the frameNum fields of the per-frame section. -/
def reportFrameNums (numSub stride : Nat) : List Nat :=
  (List.range numSub).map (fun i => i * stride)

/-- The footer aggregate entries: the VMAF score entry is always
written; the PSNR, SSIM and MS-SSIM entries are written only when the
corresponding aggregate is nonzero, exactly as the if (aggregate)
guards of the source do. -/
def jsonAggregates (v p s ms : Rat) : List (String × Rat) :=
  ("VMAF score", v)
    :: ((if p ≠ 0 then [("PSNR score", p)] else [])
        ++ (if s ≠ 0 then [("SSIM score", s)] else [])
        ++ (if ms ≠ 0 then [("MS-SSIM score", ms)] else []))

/-- Modelled from the spec: the external scoring engine processes every
stride-th frame (original indices 0, stride, 2*stride, ...), so for a
stream of total frames the per-frame score series it returns has
ceiling(total / stride) entries.  The engine itself is outside the
sources of this repository. -/
def numFramesSubsampled (total stride : Nat) : Nat :=
  (total + stride - 1) / stride

/-- The full outcome of one RunVMAF call. -/
structure RunOutput where
  code : Int
  helper : Helper
  console : List CLine
  report : Option JsonReport

/-- Embedding of RunVMAF (libvmaf_wrapper.cpp).  A caught exception
prints its line and returns the negative code without touching the
helper.  On success the aggregate VMAF score is stored in the helper
score field and the helper error is cleared; the optional aggregates
default to 0.0 when absent; one console line is printed for the VMAF
aggregate and for each optional aggregate that is nonzero, then the
bootstrap model lines; the JSON log record is produced when a log path
is configured and the format is JSON. -/
def RunVMAF (cfg : Config) (h : Helper) (engine : Except EngineExc EngineResult) :
    RunOutput :=
  match engine with
  | Except.error e =>
    { code := excCode e, helper := h, console := [excConsoleLine e], report := none }
  | Except.ok r =>
    let pm := cfg.pool_method
    let aggregate_vmaf := r.agg pm "vmaf"
    let h1 : Helper := { h with score := aggregate_vmaf, error := 0 }
    let aggregate_bagging := aggregateOf r pm "bagging"
    let aggregate_stddev := aggregateOf r pm "stddev"
    let aggregate_ci95_low := aggregateOf r pm "ci95_low"
    let aggregate_ci95_high := aggregateOf r pm "ci95_high"
    let aggregate_psnr := aggregateOf r pm "psnr"
    let aggregate_ssim := aggregateOf r pm "ssim"
    let aggregate_ms_ssim := aggregateOf r pm "ms_ssim"
    let binfo := bootstrapInfo pm r
    let console : List CLine :=
      [CLine.metricScore MetricId.vmaf (poolMethodName pm) aggregate_vmaf]
      ++ (if aggregate_bagging ≠ 0 then
            [CLine.metricScore MetricId.bagging (poolMethodName pm) aggregate_bagging] else [])
      ++ (if aggregate_stddev ≠ 0 then
            [CLine.metricScore MetricId.stddev (poolMethodName pm) aggregate_stddev] else [])
      ++ (if aggregate_ci95_low ≠ 0 then
            [CLine.metricScore MetricId.ci95lo (poolMethodName pm) aggregate_ci95_low] else [])
      ++ (if aggregate_ci95_high ≠ 0 then
            [CLine.metricScore MetricId.ci95hi (poolMethodName pm) aggregate_ci95_high] else [])
      ++ (if aggregate_psnr ≠ 0 then
            [CLine.metricScore MetricId.psnr (poolMethodName pm) aggregate_psnr] else [])
      ++ (if aggregate_ssim ≠ 0 then
            [CLine.metricScore MetricId.ssim (poolMethodName pm) aggregate_ssim] else [])
      ++ (if aggregate_ms_ssim ≠ 0 then
            [CLine.metricScore MetricId.msssim (poolMethodName pm) aggregate_ms_ssim] else [])
      ++ binfo.2.2
    let report : Option JsonReport :=
      match cfg.log_path with
      | none => none
      | some _ =>
        if cfg.log_fmt = GstVmafLogFmtEnum.jsonLogFmt then
          some { params := { model := fileNameOf cfg.model_path
                             scaledWidth := h.frame_width
                             scaledHeight := h.frame_height
                             subsample := cfg.subsample
                             numBootstrapModels := binfo.1
                             bootstrapModelList := binfo.2.1 }
                 metrics := r.keys
                 frames := jsonFrames r cfg.subsample
                 aggregates := jsonAggregates aggregate_vmaf aggregate_psnr
                                 aggregate_ssim aggregate_ms_ssim }
        else none
    { code := 0, helper := h1, console := console, report := report }

/-- Embedding of vmaf_thread_call (the GstTask function).  It locks and
unlocks check_error to read the recorded error (blocked if the mutex is
held), returns immediately without calling the scoring engine when the
error is nonzero, and otherwise runs RunVMAF, records its return code,
unlocks wait_reading_complete, and prints either the error line or the
per-stream score line.  The boolean in the result records whether the
scoring engine was invoked. -/
def vmaf_thread_call (cfg : Config) (h : Helper)
    (engine : Except EngineExc EngineResult) :
    Option (Helper × List CLine × Bool) :=
  if h.check_error = true then none
  else if h.error ≠ 0 then some (h, [], false)
  else
    let out := RunVMAF cfg h engine
    let h' : Helper := { out.helper with error := out.code, wait_reading_complete := false }
    let line :=
      if out.code ≠ 0 then CLine.errSink h'.sink_index out.code
      else CLine.vmafSink h'.sink_index h'.score
    some (h', out.console ++ [line], true)

/-- Iterated invocations of the task function, as the GstTask loop
performs them, each with the engine outcome of that iteration. -/
def callSeq (cfg : Config) (h : Helper) :
    List (Except EngineExc EngineResult) → Option Helper
  | [] => some h
  | o :: rest =>
    match vmaf_thread_call cfg h o with
    | none => none
    | some (h', _lines, _ran) => callSeq cfg h' rest

/-- A small 2x2 frame used as concrete input. -/
def frameEx : Frame := { width := 2, height := 2, data := fun n => n }

/-- A frame whose geometry disagrees with frameEx. -/
def cmpMismatch : Frame := { width := 5, height := 3, data := fun n => n + 7 }

/-- A helper that has recorded a nonzero scoring-engine error and whose
worker is started with known geometry. -/
def hErr : Helper :=
  { initHelper 0 with
      error := 5
      frame_width := 2
      frame_height := 2
      thread_started := true }

/-- The helper state compare_frames leaves behind after its early
return on a recorded error: the task stopped, and check_error still
locked because the early return skips the unlock. -/
def hErrAfter : Helper :=
  { hErr with check_error := true, thread_started := false }

/-- A helper whose channel has been signalled no-more-frames. -/
def hEos : Helper :=
  { initHelper 0 with wait_frame := false, no_frames := true }

/-- A helper with a frame pair published and frame-ready signalled. -/
def hReady : Helper :=
  { initHelper 0 with
      wait_frame := false
      frame_width := 2
      frame_height := 1
      original_ptr := fun n => n + 3
      distorted_ptr := fun n => 2 * n }

/-- A three-stream pool: one worker never started, one with a recorded
error, one started normally. -/
def pool3 : List Helper :=
  [initHelper 0,
   { initHelper 1 with error := 7, thread_started := true },
   { initHelper 2 with thread_started := true, frame_width := 2, frame_height := 2 }]

/-- A configuration with a JSON log destination. -/
def cfgLog : Config :=
  { model_path := "vmaf_v0.6.1.pkl"
    log_path := some "results.json"
    log_fmt := GstVmafLogFmtEnum.jsonLogFmt
    disable_clip := false
    enable_transform := false
    phone_model := false
    psnr := false
    ssim := false
    ms_ssim := false
    pool_method := GstVmafPoolMethodEnum.meanPool
    num_threads := 0
    subsample := 1
    conf_int := false }

/-- An engine result carrying only the fused metric. -/
def rVmafOnly : EngineResult :=
  { keys := ["vmaf"], scores := fun _ => [], agg := fun _ _ => 95 }

/-- An engine result for ten frames at stride three: four subsampled
scores. -/
def r10 : EngineResult :=
  { keys := ["vmaf"]
    scores := fun k => if k = "vmaf" then [1, 1, 1, 1] else []
    agg := fun _ _ => 1 }

/-- An engine result with a PSNR series present. -/
def rPsnrEx : EngineResult :=
  { keys := ["vmaf", "psnr"]
    scores := fun _ => []
    agg := fun _ k => if k = "psnr" then 30 else 95 }

/-- An engine result used for the C7 witness. -/
def rC7w : EngineResult :=
  { keys := ["vmaf"], scores := fun _ => [], agg := fun _ _ => 7 }

/-- A pool for one aggregate cycle: stream 0 has a recorded error,
stream 1 is fresh. -/
def poolC3 : List Helper :=
  [{ initHelper 0 with error := 7, frame_width := 2, frame_height := 2 },
   initHelper 1]

/-- Three prepared pads: the first is the reference. -/
def padsC3 : List (Option Frame) := [some frameEx, some frameEx, some frameEx]

/-- Two consecutive failing engine outcomes. -/
def outcomesFail : List (Except EngineExc EngineResult) :=
  [Except.error EngineExc.unknownExc, Except.error (EngineExc.stdExc "x")]

/-- Whether a console line is the aggregate-score line of the given
metric. -/
def isMetricLine (m : MetricId) (l : CLine) : Bool :=
  match l with
  | CLine.metricScore m' _ _ => m' == m
  | _ => false

/-- Whether the pool label of a metric-score line is the given one
(lines of other shapes are unconstrained). -/
def metricPoolMatches (p : String) (l : CLine) : Bool :=
  match l with
  | CLine.metricScore _ q _ => q == p
  | _ => true

/-- Claim C1: for every frame handoff on one stream channel, the
consumer read_frame blocks until frame-ready or no-more-frames is
signalled (both signals unlock wait_frame); in the no-more-frames case
it returns code 2 with reading_correct = FALSE without signalling
frame-consumed (wait_reading_complete is untouched and no signal event
is emitted); in the success case it signals frame-consumed only after
both the reference and distorted pixel buffers have been fully copied
out: the signal is the last event of the trace, after a copy event for
every pixel of both buffers. -/
theorem c1_read_frame_contract (h : Helper) :
    (h.wait_frame = true → read_frame h = none)
    ∧ (h.wait_frame = false → h.no_frames = true →
        read_frame h = some (2, { h with wait_frame := true, reading_correct := false }, []))
    ∧ (h.wait_frame = false → h.no_frames = false →
        read_frame h = some (0,
            { h with wait_frame := true, reading_correct := true,
                     wait_reading_complete := false },
            readCopyTrace h ++ [Ev.signalReadingComplete])
        ∧ Ev.signalReadingComplete ∉ readCopyTrace h
        ∧ (∀ i j, i < h.frame_height → j < h.frame_width →
            Ev.copyPixel i j (h.original_ptr (i * h.frame_width + j))
              (h.distorted_ptr (i * h.frame_width + j)) ∈ readCopyTrace h)) := by
  refine ⟨fun hw => ?_, fun hw hn => ?_, fun hw hn => ⟨?_, ?_, ?_⟩⟩
  · simp [read_frame, hw]
  · simp [read_frame, hw, hn]
  · simp [read_frame, hw, hn]
    rfl
  · intro hmem
    simp only [readCopyTrace, List.mem_flatMap, List.mem_map, List.mem_range] at hmem
    obtain ⟨i, _, j, _, hcontr⟩ := hmem
    exact Ev.noConfusion hcontr
  · intro i j hi hj
    simp only [readCopyTrace, List.mem_flatMap, List.mem_map, List.mem_range]
    exact ⟨i, hi, j, hj, rfl⟩

/-- Witness for C1 at concrete states: a ready channel with a 2x1 frame
pair delivers code 0 with the copy-then-signal trace, and a closed
channel delivers code 2 with the empty trace. -/
theorem c1_read_frame_witness :
    read_frame hReady = some (0,
        { hReady with wait_frame := true, reading_correct := true,
                      wait_reading_complete := false },
        readCopyTrace hReady ++ [Ev.signalReadingComplete])
    ∧ read_frame hEos = some (2, { hEos with wait_frame := true, reading_correct := false }, []) :=
  ⟨((c1_read_frame_contract hReady).2.2 rfl rfl).1,
   (c1_read_frame_contract hEos).2.1 rfl rfl⟩

/-- Claim C2: vmaf_threads_close (run on the READY-to-NULL transition
by gst_vmaf_change_state) first sets no-more-frames on every worker
channel and leaves wait_frame unlocked (trylock followed by unlock, a
nonblocking sequence), so that a worker blocked in read_frame proceeds
and observes end-of-stream (return code 2) whatever its error or start
state; only afterwards does it emit a join for every worker, including
workers that never started.  The trace splits into a channel-closing
part containing every close event and a join part containing only
joins. -/
theorem c2_teardown (pool : List Helper) :
    (vmaf_threads_close pool).1.length = pool.length
    ∧ (∀ h ∈ (vmaf_threads_close pool).1, h.no_frames = true ∧ h.wait_frame = false)
    ∧ (∀ h ∈ (vmaf_threads_close pool).1,
        read_frame h = some (2, { h with wait_frame := true, reading_correct := false }, []))
    ∧ (∀ i, i < pool.length → CloseEv.join i ∈ (vmaf_threads_close pool).2)
    ∧ (∃ pre post, (vmaf_threads_close pool).2 = pre ++ post
        ∧ (∀ e ∈ pre, ∀ i, e ≠ CloseEv.join i)
        ∧ (∀ e ∈ post, ∃ i, e = CloseEv.join i)
        ∧ (∀ i, i < pool.length →
            CloseEv.setNoFrames i ∈ pre ∧ CloseEv.unlockWaitFrame i ∈ pre)) := by
  refine ⟨by simp [vmaf_threads_close], ?_, ?_, ?_, ?_⟩
  · intro h hmem
    simp only [vmaf_threads_close, List.mem_map] at hmem
    obtain ⟨g, _, rfl⟩ := hmem
    exact ⟨rfl, rfl⟩
  · intro h hmem
    simp only [vmaf_threads_close, List.mem_map] at hmem
    obtain ⟨g, _, rfl⟩ := hmem
    simp [read_frame, closeHelper]
  · intro i hi
    simp only [vmaf_threads_close]
    exact List.mem_append_right _ (List.mem_map.mpr ⟨i, List.mem_range.mpr hi, rfl⟩)
  · refine ⟨(List.range pool.length).flatMap (fun i =>
        [CloseEv.setNoFrames i, CloseEv.unlockWaitFrame i]),
      (List.range pool.length).map CloseEv.join, rfl, ?_, ?_, ?_⟩
    · intro e hmem i
      simp only [List.mem_flatMap, List.mem_range] at hmem
      obtain ⟨j, _, hj⟩ := hmem
      simp only [List.mem_cons, List.mem_singleton] at hj
      rcases hj with h1 | h1 | h1
      · simp [h1]
      · simp [h1]
      · exact absurd h1 (by simp)
    · intro e hmem
      simp only [List.mem_map, List.mem_range] at hmem
      obtain ⟨j, _, rfl⟩ := hmem
      exact ⟨j, rfl⟩
    · intro i hi
      constructor
      · exact List.mem_flatMap.mpr ⟨i, List.mem_range.mpr hi, by simp⟩
      · exact List.mem_flatMap.mpr ⟨i, List.mem_range.mpr hi, by simp⟩

/-- Witness for C2 on the three-stream pool of which one worker never
started and one has a recorded error: the errored worker channel is
closed and its pending read returns end-of-stream, and every worker is
joined. -/
theorem c2_teardown_witness :
    read_frame (closeHelper { initHelper 1 with error := 7, thread_started := true })
      = some (2, { closeHelper { initHelper 1 with error := 7, thread_started := true } with
                     wait_frame := true, reading_correct := false }, [])
    ∧ CloseEv.join 0 ∈ (vmaf_threads_close pool3).2
    ∧ CloseEv.join 2 ∈ (vmaf_threads_close pool3).2 := by
  refine ⟨?_, ?_, ?_⟩
  · exact (c2_teardown pool3).2.2.1 _
      (List.mem_map.mpr ⟨_, by simp [pool3], rfl⟩)
  · exact (c2_teardown pool3).2.2.2.1 0 (by simp [pool3])
  · exact (c2_teardown pool3).2.2.2.1 2 (by simp [pool3])

/-- Claim C5, evaluated at the failing input.  Once a worker has
recorded a nonzero error (hErr with error 5): the task function
returns immediately without invoking the scoring engine (flag false),
and the first subsequent dispatch returns failure with an empty trace
(the frame is not submitted: no frame-ready signal) -- but the early
return skips the unlock of check_error, so the dispatch leaves the
helper in hErrAfter with check_error still locked, and every further
dispatch blocks forever in g_mutex_lock (check_error) instead of
returning failure, contradicting the claim that every subsequent
dispatch returns failure. -/
theorem c5_error_latch_mutex_leak :
    (∀ cfg engine, vmaf_thread_call cfg hErr engine = some (hErr, [], false))
    ∧ compare_frames hErr frameEx frameEx ConsumerAct.respond = some (false, hErrAfter, [])
    ∧ hErrAfter.check_error = true
    ∧ (∀ ref cmp a, compare_frames hErrAfter ref cmp a = none) := by
  refine ⟨fun cfg engine => rfl, rfl, rfl, fun ref cmp a => rfl⟩

/-- Counterexample for C9: a comparison frame whose geometry (5x3)
disagrees with the reference geometry (2x2) is not detected: the
dispatch on a fresh worker succeeds (result TRUE), records no error,
and submits the frame (the trace contains the frame-ready signal), so
the mismatch is processed rather than treated as a configuration
error. -/
theorem c9_counterexample :
    (compare_frames (initHelper 0) frameEx cmpMismatch ConsumerAct.respond).map
        (fun x => (x.1, x.2.1.error, x.2.2.contains Ev.signalFrameReady))
      = some (true, 0, true) := by
  rfl

/-- Claim C9 as amended: compare_frames performs no geometry check on
the comparison frame at all -- its behaviour depends on the comparison
frame only through the pixel buffer, so any two comparison geometries
give identical results, and the worker geometry is taken from the
reference frame alone. -/
theorem c9_no_geometry_check (h : Helper) (ref : Frame) (d : Nat → Nat)
    (w1 g1 w2 g2 : Nat) (a : ConsumerAct) :
    compare_frames h ref { width := w1, height := g1, data := d } a
      = compare_frames h ref { width := w2, height := g2, data := d } a := by
  rfl

/-- A position is below the subsampled frame count exactly when the
corresponding original frame index is below the total. -/
theorem lt_numFramesSubsampled_iff (t s i : Nat) (hs : 1 ≤ s) :
    i < numFramesSubsampled t s ↔ i * s < t := by
  unfold numFramesSubsampled
  rw [Nat.lt_iff_add_one_le, Nat.le_div_iff_mul_le (by omega : 0 < s)]
  rw [show (i + 1) * s = i * s + s by ring]
  generalize i * s = a
  omega

/-- The frameNum fields of the per-frame section are exactly the
reportFrameNums list. -/
theorem jsonFrames_map_fst (r : EngineResult) (s : Nat) :
    (jsonFrames r s).map Prod.fst = reportFrameNums (r.scores "vmaf").length s := by
  simp [jsonFrames, reportFrameNums, List.map_map, Function.comp]

/-- Claim C6: in the JSON report the per-frame record at subsampled
position i carries frame number i times the subsample stride, the
number of per-frame records equals the ceiling of total frames divided
by the stride (the engine-produced series length, modelled from the
spec as numFramesSubsampled), and the set of frame numbers is exactly
the multiples of the stride below the total. -/
theorem c6_subsample_indexing (total stride : Nat) (r : EngineResult)
    (hs : 1 ≤ stride)
    (hn : (r.scores "vmaf").length = numFramesSubsampled total stride) :
    ((jsonFrames r stride).map Prod.fst).length = numFramesSubsampled total stride
    ∧ (∀ i, i < numFramesSubsampled total stride →
        ((jsonFrames r stride).map Prod.fst).getD i 0 = i * stride)
    ∧ (∀ m, m ∈ (jsonFrames r stride).map Prod.fst ↔ (m % stride = 0 ∧ m < total)) := by
  rw [jsonFrames_map_fst, hn]
  refine ⟨by simp [reportFrameNums], ?_, ?_⟩
  · intro i hi
    rw [reportFrameNums, List.getD_eq_getElem _ _ (by simpa using hi)]
    simp
  · intro m
    unfold reportFrameNums
    simp only [List.mem_map, List.mem_range]
    constructor
    · rintro ⟨i, hi, rfl⟩
      exact ⟨Nat.mul_mod_left i stride,
        (lt_numFramesSubsampled_iff total stride i hs).mp hi⟩
    · rintro ⟨hmod, hlt⟩
      refine ⟨m / stride, ?_, ?_⟩
      · exact (lt_numFramesSubsampled_iff total stride _ hs).mpr
          (by rwa [Nat.div_mul_cancel (Nat.dvd_of_mod_eq_zero hmod)])
      · exact Nat.div_mul_cancel (Nat.dvd_of_mod_eq_zero hmod)

/-- Witness for C6 at stride 3 with 10 total frames: the report frame
numbers are 0, 3, 6, 9, there are four records, 9 is a listed frame
number and 5 is not. -/
theorem c6_subsample_witness :
    reportFrameNums (numFramesSubsampled 10 3) 3 = [0, 3, 6, 9]
    ∧ ((jsonFrames r10 3).map Prod.fst).length = 4
    ∧ (9 ∈ (jsonFrames r10 3).map Prod.fst ↔ (9 % 3 = 0 ∧ 9 < 10))
    ∧ (5 ∈ (jsonFrames r10 3).map Prod.fst ↔ (5 % 3 = 0 ∧ 5 < 10)) := by
  refine ⟨by decide, ?_, ?_, ?_⟩
  · exact ((c6_subsample_indexing 10 3 r10 (by decide) (by decide)).1).trans (by decide)
  · exact (c6_subsample_indexing 10 3 r10 (by decide) (by decide)).2.2 9
  · exact (c6_subsample_indexing 10 3 r10 (by decide) (by decide)).2.2 5

/-- Counterexample for C7: with PSNR, SSIM and MS-SSIM unselected (the
engine result carries only the fused metric), the serialized report
footer contains exactly the VMAF aggregate entry; no entry with value
0.0 is written for the unselected metrics, so the report does not
always write 0.0 for unselected metrics. -/
theorem c7_counterexample :
    ((RunVMAF cfgLog (initHelper 0) (Except.ok rVmafOnly)).report).map
        (fun rep => rep.aggregates.map Prod.fst) = some ["VMAF score"]
    ∧ ((RunVMAF cfgLog (initHelper 0) (Except.ok rVmafOnly)).report).map
        (fun rep => (rep.aggregates.map Prod.fst).contains "PSNR score") = some false := by
  exact ⟨rfl, rfl⟩

/-- Claim C7 as amended: unselected metrics default to an internal
aggregate of 0.0, and the report footer omits the aggregate entry of
any metric whose aggregate is 0.0 -- so unselected metrics are omitted
from the report, not serialized as 0.0 -- while a nonzero aggregate is
always written and the VMAF entry is always present. -/
theorem c7_unselected_omitted (cfg : Config) (h : Helper) (r : EngineResult)
    (hp : r.hasScores "psnr" = false) (hq : r.hasScores "ssim" = false)
    (hm : r.hasScores "ms_ssim" = false)
    (hlog : cfg.log_path.isSome = true)
    (hfmt : cfg.log_fmt = GstVmafLogFmtEnum.jsonLogFmt) :
    ((RunVMAF cfg h (Except.ok r)).report).map (fun rep => rep.aggregates.map Prod.fst)
      = some ["VMAF score"]
    ∧ (∀ v p s ms : Rat, p ≠ 0 → ("PSNR score", p) ∈ jsonAggregates v p s ms) := by
  obtain ⟨lp, hlp⟩ := Option.isSome_iff_exists.mp hlog
  constructor
  · simp [RunVMAF, hlp, hfmt, aggregateOf, hp, hq, hm, jsonAggregates]
  · intro v p s ms hp0
    simp [jsonAggregates, hp0]

/-- Witness for C7: a concrete configured log and a result without the
optional metrics yields only the VMAF footer entry, while a nonzero
PSNR aggregate would be written. -/
theorem c7_unselected_witness :
    ((RunVMAF cfgLog (initHelper 0) (Except.ok rC7w)).report).map
        (fun rep => rep.aggregates.map Prod.fst) = some ["VMAF score"]
    ∧ ("PSNR score", (5 : Rat)) ∈ jsonAggregates 7 5 0 0 := by
  refine ⟨(c7_unselected_omitted cfgLog (initHelper 0) rC7w (by decide) (by decide)
      (by decide) (by decide) rfl).1, ?_⟩
  exact (c7_unselected_omitted cfgLog (initHelper 0) rC7w (by decide) (by decide)
      (by decide) (by decide) rfl).2 7 5 0 0 (by norm_num)

/-- Every console line produced by the bootstrap-model loop is a
bootstrap-score line. -/
theorem bootstrap_lines_shape (pm : GstVmafPoolMethodEnum) (r : EngineResult) :
    ∀ l ∈ (bootstrapInfo pm r).2.2, ∃ p k v, l = CLine.bootstrapScore p k v := by
  have key : ∀ (ks : List String) (acc : Nat × String × List CLine),
      (∀ l ∈ acc.2.2, ∃ p k v, l = CLine.bootstrapScore p k v) →
      ∀ l ∈ (ks.foldl (bootstrapStep pm r) acc).2.2,
        ∃ p k v, l = CLine.bootstrapScore p k v := by
    intro ks
    induction ks with
    | nil => intro acc hacc; simpa using hacc
    | cons k ks ih =>
      intro acc hacc
      simp only [List.foldl_cons]
      apply ih
      unfold bootstrapStep
      split
      · intro l hl
        simp only [List.mem_append, List.mem_singleton] at hl
        rcases hl with hl | hl
        · exact hacc l hl
        · exact ⟨_, _, _, hl⟩
      · exact hacc
  exact key r.keys (0, "", []) (by simp)

/-- No metric-score line is counted among the bootstrap lines. -/
theorem countP_bootstrap_zero (pm : GstVmafPoolMethodEnum) (r : EngineResult)
    (m : MetricId) :
    ((bootstrapInfo pm r).2.2).countP (isMetricLine m) = 0 := by
  rw [List.countP_eq_zero]
  intro l hl
  obtain ⟨p, k, v, rfl⟩ := bootstrap_lines_shape pm r l hl
  simp [isMetricLine]

/-- The bootstrap lines place no constraint on the pool label. -/
theorem all_pool_bootstrap (pm : GstVmafPoolMethodEnum) (r : EngineResult)
    (p : String) :
    ((bootstrapInfo pm r).2.2).all (metricPoolMatches p) = true := by
  rw [List.all_eq_true]
  intro l hl
  obtain ⟨q, k, v, rfl⟩ := bootstrap_lines_shape pm r l hl
  simp [metricPoolMatches]

/-- countP over an optional singleton segment. -/
theorem countP_ite_singleton {c : Prop} [Decidable c] (p : CLine → Bool) (a : CLine) :
    (if c then [a] else []).countP p = if c then (if p a = true then 1 else 0) else 0 := by
  split <;> simp [List.countP_cons]

/-- all over an optional singleton segment. -/
theorem all_ite_singleton {c : Prop} [Decidable c] (p : CLine → Bool) (a : CLine) :
    (if c then [a] else []).all p = (if c then p a else true) := by
  split <;> simp

/-- countP over an optional singleton segment, negated orientation. -/
theorem countP_ite_nil {c : Prop} [Decidable c] (p : CLine → Bool) (a : CLine) :
    (if c then [] else [a]).countP p = if c then 0 else (if p a = true then 1 else 0) := by
  split <;> simp [List.countP_cons]

/-- all over an optional singleton segment, negated orientation. -/
theorem all_ite_nil {c : Prop} [Decidable c] (p : CLine → Bool) (a : CLine) :
    (if c then [] else [a]).all p = (if c then true else p a) := by
  split <;> simp

/-- Counterexample for C8: at a concrete failing stream (index 0,
runtime_error, code -3) the console consists of the caught-exception
line followed by the line Error sink_0: -3; no line of the claimed
shape Error stream 0: -3 is printed. -/
theorem c8_counterexample :
    ((vmaf_thread_call cfgLog (initHelper 0)
        (Except.error (EngineExc.runtimeError "boom"))).map
      (fun x => x.2.1.map CLine.render))
      = some ["Caught runtime_error: boom", "Error sink_0: -3"]
    ∧ (["Caught runtime_error: boom", "Error sink_0: -3"].contains
        "Error stream 0: -3") = false := by
  exact ⟨rfl, by decide⟩

/-- Claim C8 as amended: on failure of a stream the console carries the
caught-exception line followed by exactly one error line of the shape
Error sink_(index): (code), with the 0-based non-reference sink index
and the worker error code; on completion the console carries exactly
one aggregate line per computed metric whose aggregate is nonzero --
each of shape (metric) score ((pool-method)) = (value) with the pool
label equal to the configured pooling method label -- and the
per-stream summary line VMAF sink_(index): (score). -/
theorem c8_console_lines (cfg : Config) (h : Helper) (r : EngineResult)
    (e : EngineExc) (herr : h.error = 0) (hce : h.check_error = false) :
    (vmaf_thread_call cfg h (Except.error e)).map (fun x => x.2.1)
      = some [excConsoleLine e, CLine.errSink h.sink_index (excCode e)]
    ∧ (vmaf_thread_call cfg h (Except.ok r)).map
        (fun x => (x.2.1.countP (isMetricLine MetricId.psnr),
                   x.2.1.countP (isMetricLine MetricId.ssim),
                   x.2.1.countP (isMetricLine MetricId.msssim),
                   x.2.1.countP (isMetricLine MetricId.vmaf)))
      = some ((if aggregateOf r cfg.pool_method "psnr" ≠ 0 then 1 else 0),
              (if aggregateOf r cfg.pool_method "ssim" ≠ 0 then 1 else 0),
              (if aggregateOf r cfg.pool_method "ms_ssim" ≠ 0 then 1 else 0),
              1)
    ∧ (vmaf_thread_call cfg h (Except.ok r)).map
        (fun x => x.2.1.all (metricPoolMatches (poolMethodName cfg.pool_method)))
      = some true := by
  have hne : excCode e ≠ 0 := by cases e <;> norm_num [excCode]
  refine ⟨?_, ?_, ?_⟩
  · simp [vmaf_thread_call, hce, herr, RunVMAF, hne]
  · simp [vmaf_thread_call, hce, herr, RunVMAF, List.countP_append,
      countP_ite_singleton, countP_ite_nil, countP_bootstrap_zero,
      List.countP_cons, isMetricLine]
  · simp [vmaf_thread_call, hce, herr, RunVMAF, List.all_append,
      all_ite_singleton, all_ite_nil, all_pool_bootstrap, metricPoolMatches]

/-- Witness for C8: a concrete failing stream prints exactly the
exception line and the sink-indexed error line, and a concrete
completed stream with a PSNR aggregate prints one PSNR line, no SSIM
or MS-SSIM line, and one VMAF line. -/
theorem c8_console_witness :
    (vmaf_thread_call cfgLog (initHelper 0)
        (Except.error (EngineExc.logicError "bad"))).map (fun x => x.2.1)
      = some [excConsoleLine (EngineExc.logicError "bad"), CLine.errSink 0 (-4)]
    ∧ (vmaf_thread_call cfgLog (initHelper 0) (Except.ok rPsnrEx)).map
        (fun x => (x.2.1.countP (isMetricLine MetricId.psnr),
                   x.2.1.countP (isMetricLine MetricId.ssim),
                   x.2.1.countP (isMetricLine MetricId.msssim),
                   x.2.1.countP (isMetricLine MetricId.vmaf)))
      = some (1, 0, 0, 1) := by
  constructor
  · exact (c8_console_lines cfgLog (initHelper 0) rPsnrEx
      (EngineExc.logicError "bad") rfl rfl).1
  · exact ((c8_console_lines cfgLog (initHelper 0) rPsnrEx
      (EngineExc.logicError "bad") rfl rfl).2.1).trans (by decide)

/-- The dispatch loop after the reference has been found: every later
prepared pad produces exactly one dispatch, the dispatched stream
indices continue consecutively, and the accumulated result is the
conjunction of the incoming one with all dispatch results. -/
theorem aggLoop_ref_spec (cons : Nat → ConsumerAct) (rf : Frame) :
    ∀ (pads : List (Option Frame)) (pool : List Helper) (idx : Nat) (res : Bool)
      (disp : List (Nat × Bool)) (res' : Bool) (pool' : List Helper)
      (disp' : List (Nat × Bool)),
      aggLoop cons (some rf) pool idx res disp pads = some (res', pool', disp') →
      ∃ new, disp' = disp ++ new
        ∧ new.map Prod.fst = List.range' idx new.length
        ∧ new.length = (pads.filterMap id).length
        ∧ res' = (res && new.all Prod.snd) := by
  intro pads
  induction pads with
  | nil =>
    intro pool idx res disp res' pool' disp' heq
    simp only [aggLoop, Option.some.injEq, Prod.mk.injEq] at heq
    obtain ⟨rfl, rfl, rfl⟩ := heq
    exact ⟨[], by simp, by simp, by simp, by simp⟩
  | cons hd rest ih =>
    intro pool idx res disp res' pool' disp' heq
    cases hd with
    | none =>
      simp only [aggLoop] at heq
      obtain ⟨new, h1, h2, h3, h4⟩ := ih _ _ _ _ _ _ _ heq
      exact ⟨new, h1, h2, by simpa using h3, h4⟩
    | some f =>
      simp only [aggLoop] at heq
      cases hcf : compare_frames (pool.getD idx helperDefault) rf f (cons idx) with
      | none => rw [hcf] at heq; exact absurd heq (by simp)
      | some triple =>
        obtain ⟨r, h', tr⟩ := triple
        rw [hcf] at heq
        obtain ⟨new, h1, h2, h3, h4⟩ := ih _ _ _ _ _ _ _ heq
        refine ⟨(idx, r) :: new, ?_, ?_, ?_, ?_⟩
        · rw [h1]; simp
        · simp [h2, List.range'_succ]
        · simp [h3]
        · rw [h4]; simp [Bool.and_assoc]

/-- The whole pad loop starting before the reference is found: the
dispatched indices are 0 up to the number of prepared non-reference
pads, and the cycle result is the conjunction of all dispatch
results. -/
theorem aggLoop_none_spec (cons : Nat → ConsumerAct) :
    ∀ (pads : List (Option Frame)) (pool : List Helper) (res' : Bool)
      (pool' : List Helper) (disp' : List (Nat × Bool)),
      aggLoop cons none pool 0 true [] pads = some (res', pool', disp') →
      disp'.map Prod.fst = List.range ((pads.filterMap id).length - 1)
      ∧ res' = disp'.all Prod.snd := by
  intro pads
  induction pads with
  | nil =>
    intro pool res' pool' disp' heq
    simp only [aggLoop, Option.some.injEq, Prod.mk.injEq] at heq
    obtain ⟨rfl, rfl, rfl⟩ := heq
    simp
  | cons hd rest ih =>
    intro pool res' pool' disp' heq
    cases hd with
    | none =>
      simp only [aggLoop] at heq
      obtain ⟨hmap, hres⟩ := ih _ _ _ _ heq
      exact ⟨by simpa using hmap, hres⟩
    | some f =>
      simp only [aggLoop] at heq
      obtain ⟨new, h1, h2, h3, h4⟩ := aggLoop_ref_spec cons f rest _ _ _ _ _ _ _ heq
      subst h1
      refine ⟨?_, by simpa using h4⟩
      simp only [List.nil_append, List.filterMap_cons, id, List.length_cons]
      rw [h2, h3]
      simp [List.range_eq_range']

/-- Claim C3: in one output frame cycle, gst_vmaf_aggregate_frames
attempts the compare_frames dispatch for every non-reference sink pad
that has a prepared frame (the dispatched stream indices are exactly
0 .. preparedCount - 2 in order) even when an earlier dispatch in the
cycle failed; the cycle returns GST_FLOW_ERROR exactly when at least
one dispatch failed, and otherwise posts the VMAF message with the
time field and returns GST_FLOW_OK. -/
theorem c3_aggregate_cycle (cons : Nat → ConsumerAct) (pool : List Helper)
    (pads : List (Option Frame)) (t : Nat)
    (hsome : (gst_vmaf_aggregate_frames cons pool pads t).isSome = true) :
    ((gst_vmaf_aggregate_frames cons pool pads t).map
        (fun out => out.dispatched.map Prod.fst))
      = some (List.range ((pads.filterMap id).length - 1))
    ∧ ((gst_vmaf_aggregate_frames cons pool pads t).map
        (fun out => (out.flow == FlowReturn.flowError) == (!out.dispatched.all Prod.snd)))
      = some true
    ∧ ((gst_vmaf_aggregate_frames cons pool pads t).map
        (fun out => if out.dispatched.all Prod.snd = true
                    then out.posted == some { sname := "VMAF", time := some t }
                    else out.posted == none))
      = some true := by
  unfold gst_vmaf_aggregate_frames at hsome ⊢
  cases hagg : aggLoop cons none pool 0 true [] pads with
  | none => rw [hagg] at hsome; simp at hsome
  | some out3 =>
    obtain ⟨res, pool', disp⟩ := out3
    obtain ⟨hmap, hres⟩ := aggLoop_none_spec cons pads pool res pool' disp hagg
    cases hr : res with
    | true =>
      subst hr
      simp [hmap, ← hres]
    | false =>
      subst hr
      simp [hmap, ← hres]

/-- Witness for C3 on a cycle with one reference pad and two prepared
comparison pads, of which stream 0 has a recorded error: both streams
are dispatched (indices 0 and 1), stream 0 fails, stream 1 succeeds,
and the cycle result is GST_FLOW_ERROR with no message posted. -/
theorem c3_aggregate_witness :
    ((gst_vmaf_aggregate_frames (fun _ => ConsumerAct.respond) poolC3 padsC3 5).map
        (fun out => out.dispatched.map Prod.fst))
      = some (List.range ((padsC3.filterMap id).length - 1))
    ∧ ((gst_vmaf_aggregate_frames (fun _ => ConsumerAct.respond) poolC3 padsC3 5).map
        (fun out => (out.flow == FlowReturn.flowError) == (!out.dispatched.all Prod.snd)))
      = some true
    ∧ ((gst_vmaf_aggregate_frames (fun _ => ConsumerAct.respond) poolC3 padsC3 5).map
        (fun out => (out.dispatched, out.flow, out.posted)))
      = some ([(0, false), (1, true)], FlowReturn.flowError, none) := by
  refine ⟨(c3_aggregate_cycle _ poolC3 padsC3 5 (by rfl)).1,
          (c3_aggregate_cycle _ poolC3 padsC3 5 (by rfl)).2.1, ?_⟩
  rfl

/-- The pixel-copy trace never contains a task-start event. -/
theorem count_taskStart_readCopyTrace (h : Helper) :
    (readCopyTrace h).count Ev.taskStart = 0 := by
  rw [List.count_eq_zero]
  intro hmem
  simp only [readCopyTrace, List.mem_flatMap, List.mem_map, List.mem_range] at hmem
  obtain ⟨i, _, j, _, hc⟩ := hmem
  exact Ev.noConfusion hc

/-- read_frame neither changes the recorded geometry nor emits a
task-start event. -/
theorem read_frame_no_taskStart (h : Helper) :
    ∀ x ∈ read_frame h,
      x.2.1.frame_width = h.frame_width ∧ x.2.1.frame_height = h.frame_height
      ∧ x.2.2.count Ev.taskStart = 0 := by
  unfold read_frame
  dsimp only
  intro x hx
  rw [Option.mem_def] at hx
  split at hx
  · exact absurd hx (by simp)
  · split at hx
    · simp only [Option.some.injEq] at hx
      subst hx
      exact ⟨rfl, rfl, by simp [count_taskStart_readCopyTrace]⟩
    · simp only [Option.some.injEq] at hx
      subst hx
      exact ⟨rfl, rfl, by simp⟩

/-- On a worker whose geometry is already recorded (nonzero),
compare_frames preserves the geometry and starts no task. -/
theorem compare_frames_preserve (h : Helper) (ref cmp : Frame) (a : ConsumerAct)
    (hw : h.frame_width ≠ 0) (hh : h.frame_height ≠ 0) :
    ∀ x ∈ compare_frames h ref cmp a,
      x.2.1.frame_width = h.frame_width ∧ x.2.1.frame_height = h.frame_height
      ∧ x.2.2.count Ev.taskStart = 0 := by
  unfold compare_frames
  rw [if_neg (by tauto : ¬(h.frame_width = 0 ∨ h.frame_height = 0))]
  cases a with
  | respond =>
    cases hrf : read_frame (rendezvousState { h with check_error := true } ref cmp) with
    | none =>
      dsimp only
      rw [hrf]
      dsimp only
      intro x hx
      rw [Option.mem_def] at hx
      split at hx
      · exact absurd hx (by simp)
      · split at hx
        · simp only [Option.some.injEq] at hx
          subst hx
          exact ⟨rfl, rfl, by simp⟩
        · split at hx
          · exact absurd hx (by simp)
          · split at hx
            · simp only [Option.some.injEq] at hx
              subst hx
              exact ⟨rfl, rfl, by simp⟩
            · split at hx
              · exact absurd hx (by simp)
              · simp only [Option.some.injEq] at hx
                subst hx
                refine ⟨?_, ?_, by simp⟩ <;> dsimp only <;> (try split) <;> rfl
    | some triple =>
      obtain ⟨rr, h4, tr4⟩ := triple
      obtain ⟨hW4, hH4, hC4⟩ := read_frame_no_taskStart _ _ hrf
      dsimp only
      rw [hrf]
      dsimp only
      intro x hx
      rw [Option.mem_def] at hx
      split at hx
      · exact absurd hx (by simp)
      · split at hx
        · simp only [Option.some.injEq] at hx
          subst hx
          exact ⟨rfl, rfl, by simp⟩
        · split at hx
          · exact absurd hx (by simp)
          · split at hx
            · simp only [Option.some.injEq] at hx
              subst hx
              exact ⟨hW4, hH4, by simp [hC4]⟩
            · split at hx
              · exact absurd hx (by simp)
              · simp only [Option.some.injEq] at hx
                subst hx
                refine ⟨?_, ?_, by simp [hC4]⟩ <;> dsimp only <;> (try split) <;>
                  first | exact hW4 | exact hH4 | rfl
  | engineAbort code =>
    dsimp only
    intro x hx
    rw [Option.mem_def] at hx
    split at hx
    · exact absurd hx (by simp)
    · split at hx
      · simp only [Option.some.injEq] at hx
        subst hx
        exact ⟨rfl, rfl, by simp⟩
      · split at hx
        · exact absurd hx (by simp)
        · split at hx
          · simp only [Option.some.injEq] at hx
            subst hx
            exact ⟨rfl, rfl, by simp⟩
          · split at hx
            · exact absurd hx (by simp)
            · simp only [Option.some.injEq] at hx
              subst hx
              refine ⟨?_, ?_, by simp⟩ <;> dsimp only <;> (try split) <;> rfl

/-- On a worker whose geometry is still zero, compare_frames records
the geometry of the reference frame, starts the task exactly once, and
every completed dispatch leaves that geometry in place. -/
theorem compare_frames_first (h : Helper) (ref cmp : Frame) (a : ConsumerAct)
    (hw : h.frame_width = 0 ∨ h.frame_height = 0) :
    ∀ x ∈ compare_frames h ref cmp a,
      x.2.1.frame_width = ref.width ∧ x.2.1.frame_height = ref.height
      ∧ x.2.2.count Ev.taskStart = 1 := by
  unfold compare_frames
  rw [if_pos hw]
  cases a with
  | respond =>
    cases hrf : read_frame (rendezvousState
        { h with
            frame_width := ref.width
            frame_height := ref.height
            thread_started := true
            check_error := true } ref cmp) with
    | none =>
      dsimp only
      rw [hrf]
      dsimp only
      intro x hx
      rw [Option.mem_def] at hx
      split at hx
      · exact absurd hx (by simp)
      · split at hx
        · simp only [Option.some.injEq] at hx
          subst hx
          exact ⟨rfl, rfl, by simp⟩
        · split at hx
          · exact absurd hx (by simp)
          · split at hx
            · simp only [Option.some.injEq] at hx
              subst hx
              exact ⟨rfl, rfl, by simp⟩
            · split at hx
              · exact absurd hx (by simp)
              · simp only [Option.some.injEq] at hx
                subst hx
                refine ⟨?_, ?_, by simp⟩ <;> dsimp only <;> (try split) <;> rfl
    | some triple =>
      obtain ⟨rr, h4, tr4⟩ := triple
      obtain ⟨hW4, hH4, hC4⟩ := read_frame_no_taskStart _ _ hrf
      dsimp only
      rw [hrf]
      dsimp only
      intro x hx
      rw [Option.mem_def] at hx
      split at hx
      · exact absurd hx (by simp)
      · split at hx
        · simp only [Option.some.injEq] at hx
          subst hx
          exact ⟨rfl, rfl, by simp⟩
        · split at hx
          · exact absurd hx (by simp)
          · split at hx
            · simp only [Option.some.injEq] at hx
              subst hx
              exact ⟨hW4, hH4, by simp [hC4]⟩
            · split at hx
              · exact absurd hx (by simp)
              · simp only [Option.some.injEq] at hx
                subst hx
                refine ⟨?_, ?_, by simp [hC4]⟩ <;> dsimp only <;> (try split) <;>
                  first | exact hW4 | exact hH4 | rfl
  | engineAbort code =>
    dsimp only
    intro x hx
    rw [Option.mem_def] at hx
    split at hx
    · exact absurd hx (by simp)
    · split at hx
      · simp only [Option.some.injEq] at hx
        subst hx
        exact ⟨rfl, rfl, by simp⟩
      · split at hx
        · exact absurd hx (by simp)
        · split at hx
          · simp only [Option.some.injEq] at hx
            subst hx
            exact ⟨rfl, rfl, by simp⟩
          · split at hx
            · exact absurd hx (by simp)
            · simp only [Option.some.injEq] at hx
              subst hx
              refine ⟨?_, ?_, by simp⟩ <;> dsimp only <;> (try split) <;> rfl

/-- A whole sequence of dispatches on a worker with nonzero recorded
geometry preserves the geometry and never starts the task. -/
theorem dispatchAll_preserve (frames : List (Frame × Frame)) :
    ∀ (h : Helper), h.frame_width ≠ 0 → h.frame_height ≠ 0 →
      ∀ x ∈ dispatchAll h frames,
        x.1.frame_width = h.frame_width ∧ x.1.frame_height = h.frame_height
        ∧ x.2.count Ev.taskStart = 0 := by
  induction frames with
  | nil =>
    intro h hw hh x hx
    rw [Option.mem_def] at hx
    simp only [dispatchAll, Option.some.injEq] at hx
    subst hx
    exact ⟨rfl, rfl, by simp⟩
  | cons p rest ih =>
    intro h hw hh x hx
    obtain ⟨rf, cf⟩ := p
    rw [Option.mem_def] at hx
    simp only [dispatchAll] at hx
    cases hcf : compare_frames h rf cf ConsumerAct.respond with
    | none => rw [hcf] at hx; exact absurd hx (by simp)
    | some y =>
      obtain ⟨r1, h1, tr1⟩ := y
      rw [hcf] at hx
      dsimp only at hx
      obtain ⟨hW1, hH1, hC1⟩ :=
        compare_frames_preserve h rf cf ConsumerAct.respond hw hh _ hcf
      cases hrest : dispatchAll h1 rest with
      | none => rw [hrest] at hx; exact absurd hx (by simp)
      | some z =>
        obtain ⟨hf, trs⟩ := z
        rw [hrest] at hx
        dsimp only at hx
        simp only [Option.some.injEq] at hx
        subst hx
        obtain ⟨hWf, hHf, hCf⟩ :=
          ih h1 (by rw [hW1]; exact hw) (by rw [hH1]; exact hh) _ hrest
        exact ⟨hWf.trans hW1, hHf.trans hH1, by simp [hC1, hCf]⟩

/-- Claim C4: for every stream, the worker task is started exactly once,
lazily, on the first dispatched frame pair (when the recorded geometry
is still zero): over any completed sequence of dispatches beginning in
the zero-geometry state, exactly one task-start event occurs, the
geometry is set from the first reference frame, and no later dispatch
changes it. -/
theorem c4_lazy_start_geometry (h0 : Helper) (r0 c0 : Frame)
    (rest : List (Frame × Frame))
    (hw : h0.frame_width = 0 ∨ h0.frame_height = 0)
    (hrw : r0.width ≠ 0) (hrh : r0.height ≠ 0) :
    ∀ x ∈ dispatchAll h0 ((r0, c0) :: rest),
      x.1.frame_width = r0.width ∧ x.1.frame_height = r0.height
      ∧ x.2.count Ev.taskStart = 1 := by
  intro x hx
  rw [Option.mem_def] at hx
  simp only [dispatchAll] at hx
  cases hcf : compare_frames h0 r0 c0 ConsumerAct.respond with
  | none => rw [hcf] at hx; exact absurd hx (by simp)
  | some y =>
    obtain ⟨r1, h1, tr1⟩ := y
    rw [hcf] at hx
    dsimp only at hx
    obtain ⟨hW1, hH1, hC1⟩ :=
      compare_frames_first h0 r0 c0 ConsumerAct.respond hw _ hcf
    cases hrest : dispatchAll h1 rest with
    | none => rw [hrest] at hx; exact absurd hx (by simp)
    | some z =>
      obtain ⟨hf, trs⟩ := z
      rw [hrest] at hx
      dsimp only at hx
      simp only [Option.some.injEq] at hx
      subst hx
      obtain ⟨hWf, hHf, hCf⟩ :=
        dispatchAll_preserve rest h1 (by rw [hW1]; exact hrw)
          (by rw [hH1]; exact hrh) _ hrest
      exact ⟨hWf.trans hW1, hHf.trans hH1, by simp [hC1, hCf]⟩

/-- Witness for C4: two dispatches of 2x2 frame pairs on a fresh worker
leave geometry 2x2 and exactly one task start. -/
theorem c4_lazy_start_witness :
    ((dispatchAll (initHelper 0) [(frameEx, frameEx), (frameEx, frameEx)]).map
        (fun x => (x.1.frame_width, x.1.frame_height, x.2.count Ev.taskStart)))
      = some (2, 2, 1) := by
  have hs : (dispatchAll (initHelper 0)
      [(frameEx, frameEx), (frameEx, frameEx)]).isSome = true := rfl
  cases hd : dispatchAll (initHelper 0) [(frameEx, frameEx), (frameEx, frameEx)] with
  | none => rw [hd] at hs; exact absurd hs (by simp)
  | some x =>
    obtain ⟨hW, hH, hC⟩ := c4_lazy_start_geometry (initHelper 0) frameEx frameEx
      [(frameEx, frameEx)] (Or.inl rfl) (by decide) (by decide) x hd
    simp only [Option.map_some']
    rw [hW, hH, hC]
    rfl

/-- As long as every engine outcome is a failure, iterated task-function
invocations leave the score untouched and the check_error mutex
balanced. -/
theorem callSeq_all_failed (cfg : Config) :
    ∀ (outs : List (Except EngineExc EngineResult)) (h : Helper),
      h.check_error = false →
      (∀ o ∈ outs, engineFailed o = true) →
      ∀ h', callSeq cfg h outs = some h' →
        h'.score = h.score ∧ h'.check_error = false := by
  intro outs
  induction outs with
  | nil =>
    intro h hce hfail h' heq
    simp only [callSeq, Option.some.injEq] at heq
    subst heq
    exact ⟨rfl, hce⟩
  | cons o rest ih =>
    intro h hce hfail h' heq
    simp only [callSeq] at heq
    unfold vmaf_thread_call at heq
    rw [if_neg (by simp [hce])] at heq
    by_cases he : h.error ≠ 0
    · rw [if_pos he] at heq
      dsimp only at heq
      exact ih h hce (fun o ho => hfail o (List.mem_cons_of_mem _ ho)) h' heq
    · rw [if_neg he] at heq
      dsimp only at heq
      cases o with
      | error e =>
        simp only [RunVMAF] at heq
        obtain ⟨hsc, hcerr⟩ :=
          ih { h with error := excCode e, wait_reading_complete := false } hce
            (fun o ho => hfail o (List.mem_cons_of_mem _ ho)) h' heq
        exact ⟨hsc, hcerr⟩
      | ok r =>
        exact absurd (hfail (Except.ok r) (by simp)) (by simp [engineFailed])

/-- Claim C10: every worker score is initialised to -1 at activation
and is written only by a successful scoring run; RunVMAF leaves the
score untouched and returns a nonzero code on every caught exception,
and stores the aggregate with code 0 on success; a worker that only
ever observes failing runs (or never runs at all) keeps score -1, so a
non-negative score implies some run completed successfully. -/
theorem c10_score_sentinel (cfg : Config) (n i : Nat)
    (outcomes : List (Except EngineExc EngineResult))
    (hi : i < n - 1)
    (hfail : ∀ o ∈ outcomes, engineFailed o = true)
    (hsome : (callSeq cfg (initHelper i) outcomes).isSome = true) :
    ((vmaf_threads_open n).getD i helperDefault).score = -1
    ∧ (∀ (g : Helper) (e : EngineExc),
        (RunVMAF cfg g (Except.error e)).helper.score = g.score
        ∧ (RunVMAF cfg g (Except.error e)).code ≠ 0)
    ∧ (∀ (g : Helper) (r : EngineResult),
        (RunVMAF cfg g (Except.ok r)).helper.score = r.agg cfg.pool_method "vmaf"
        ∧ (RunVMAF cfg g (Except.ok r)).code = 0)
    ∧ (callSeq cfg (initHelper i) outcomes).map Helper.score = some (-1)
    ∧ (∀ (outs : List (Except EngineExc EngineResult)) (h' : Helper),
        callSeq cfg (initHelper i) outs = some h' → 0 ≤ h'.score →
        ∃ o ∈ outs, engineFailed o = false) := by
  refine ⟨?_, ?_, ?_, ?_, ?_⟩
  · rw [vmaf_threads_open, List.getD_eq_getElem _ _ (by simpa using hi)]
    simp [initHelper]
  · intro g e
    exact ⟨rfl, by cases e <;> norm_num [RunVMAF, excCode]⟩
  · intro g r
    exact ⟨rfl, rfl⟩
  · cases hc : callSeq cfg (initHelper i) outcomes with
    | none => rw [hc] at hsome; simp at hsome
    | some h' =>
      obtain ⟨hsc, -⟩ := callSeq_all_failed cfg outcomes (initHelper i) rfl hfail h' hc
      simp [hsc, initHelper]
  · intro outs h' hc hpos
    by_contra hnone
    push_neg at hnone
    have hall : ∀ o ∈ outs, engineFailed o = true := by
      intro o ho
      cases hef : engineFailed o with
      | false => exact absurd hef (hnone o ho)
      | true => rfl
    obtain ⟨hsc, -⟩ := callSeq_all_failed cfg outs (initHelper i) rfl hall h' hc
    rw [hsc] at hpos
    norm_num [initHelper] at hpos

/-- Witness for C10 on a pool of four sink pads: worker 1 starts with
score -1 and keeps it over two failing runs. -/
theorem c10_score_witness :
    ((vmaf_threads_open 4).getD 1 helperDefault).score = -1
    ∧ (callSeq cfgLog (initHelper 1) outcomesFail).map Helper.score = some (-1) := by
  refine ⟨(c10_score_sentinel cfgLog 4 1 outcomesFail (by decide) (by decide) (by rfl)).1,
         (c10_score_sentinel cfgLog 4 1 outcomesFail (by decide) (by decide) (by rfl)).2.2.2.1⟩

end GstVmaf
